import Mathlib

/-!
Shallow embedding of the web-editor gateway in `src/api/index.js`.

The server proxies a single GitHub repository's contents API.  We model
each Express handler as a pure function from the request, the ambient
configuration (the process-wide token) and an oracle for the remote
store's responses, to the HTTP response together with the list of remote
calls the handler issued.  Byte strings are `List Nat` with every
element `< 256`; base64 text is `List Char`/`String`, mirroring Node's
`Buffer.from`/`Buffer.toString ('base64')`.
-/

namespace WorldWorld

/-! ### Base64 (standard alphabet with padding, as Node's Buffer uses) -/

/-- The character of the standard base64 alphabet at index `n` (for `n < 64`). -/
def b64Char (n : Nat) : Char :=
  if n < 26 then Char.ofNat (65 + n)
  else if n < 52 then Char.ofNat (97 + (n - 26))
  else if n < 62 then Char.ofNat (48 + (n - 52))
  else if n = 62 then '+'
  else '/'

/-- Index of a base64 alphabet character (junk on characters outside the alphabet). -/
def b64Val (c : Char) : Nat :=
  if 65 ≤ c.toNat ∧ c.toNat ≤ 90 then c.toNat - 65
  else if 97 ≤ c.toNat ∧ c.toNat ≤ 122 then c.toNat - 97 + 26
  else if 48 ≤ c.toNat ∧ c.toNat ≤ 57 then c.toNat - 48 + 52
  else if c = '+' then 62
  else 63

/-- Base64 encoding of a byte sequence, three bytes to four characters,
with `=` padding, i.e. the result of `Buffer.from(bytes).toString('base64')`. -/
def encodeB64 : List Nat → List Char
  | [] => []
  | [a] => [b64Char (a / 4), b64Char (a % 4 * 16), '=', '=']
  | [a, b] => [b64Char (a / 4), b64Char (a % 4 * 16 + b / 16), b64Char (b % 16 * 4), '=']
  | a :: b :: c :: rest =>
    b64Char (a / 4) :: b64Char (a % 4 * 16 + b / 16) :: b64Char (b % 16 * 4 + c / 64)
      :: b64Char (c % 64) :: encodeB64 rest

/-- Base64 decoding, four characters to three bytes, stopping at `=` padding,
i.e. the result of `Buffer.from(text, 'base64')`. -/
def decodeB64 : List Char → List Nat
  | a :: b :: c :: d :: rest =>
    if c = '=' then [b64Val a * 4 + b64Val b / 16]
    else if d = '=' then [b64Val a * 4 + b64Val b / 16, b64Val b % 16 * 16 + b64Val c / 4]
    else (b64Val a * 4 + b64Val b / 16) :: (b64Val b % 16 * 16 + b64Val c / 4) ::
      (b64Val c % 4 * 64 + b64Val d) :: decodeB64 rest
  | _ => []

theorem b64Val_b64Char : ∀ n, n < 64 → b64Val (b64Char n) = n := by decide

theorem b64Char_ne_eq : ∀ n, n < 64 → b64Char n ≠ '=' := by decide

theorem decodeB64_encodeB64 :
    ∀ bs : List Nat, (∀ x ∈ bs, x < 256) → decodeB64 (encodeB64 bs) = bs
  | [], _ => rfl
  | [a], h => by
    have ha : a < 256 := h a (by simp)
    simp only [encodeB64, decodeB64, if_true]
    rw [b64Val_b64Char _ (by omega), b64Val_b64Char _ (by omega)]
    simp only [List.cons.injEq, and_true]
    omega
  | [a, b], h => by
    have ha : a < 256 := h a (by simp)
    have hb : b < 256 := h b (by simp)
    simp only [encodeB64, decodeB64, if_true]
    rw [if_neg (b64Char_ne_eq _ (by omega))]
    rw [b64Val_b64Char _ (by omega), b64Val_b64Char _ (by omega), b64Val_b64Char _ (by omega)]
    simp only [List.cons.injEq, and_true]
    omega
  | a :: b :: c :: rest, h => by
    have ha : a < 256 := h a (by simp)
    have hb : b < 256 := h b (by simp)
    have hc : c < 256 := h c (by simp)
    have ih := decodeB64_encodeB64 rest (fun x hx => h x
      (List.mem_cons_of_mem a (List.mem_cons_of_mem b (List.mem_cons_of_mem c hx))))
    simp only [encodeB64, decodeB64]
    rw [if_neg (b64Char_ne_eq _ (by omega)), if_neg (b64Char_ne_eq _ (by omega))]
    rw [b64Val_b64Char _ (by omega), b64Val_b64Char _ (by omega), b64Val_b64Char _ (by omega),
      b64Val_b64Char _ (by omega)]
    rw [ih]
    simp only [List.cons.injEq, and_true]
    refine ⟨by omega, by omega, by omega⟩

/-! ### Decimal representation: `Nat.repr` is injective -/

/-- The decimal digit characters of `n`, most significant first
(the list `Nat.toDigitsCore` produces once given enough fuel). -/
def decChars (n : Nat) : List Char :=
  if _ : n < 10 then [Nat.digitChar n]
  else decChars (n / 10) ++ [Nat.digitChar (n % 10)]
termination_by n
decreasing_by exact Nat.div_lt_self (by omega) (by omega)

theorem decChars_lt {n : Nat} (h : n < 10) : decChars n = [Nat.digitChar n] := by
  rw [decChars.eq_def, dif_pos h]

theorem decChars_ge {n : Nat} (h : ¬ n < 10) :
    decChars n = decChars (n / 10) ++ [Nat.digitChar (n % 10)] := by
  rw [decChars.eq_def, dif_neg h]

theorem toDigitsCore_eq_decChars :
    ∀ f n l, n < f → Nat.toDigitsCore 10 f n l = decChars n ++ l := by
  intro f
  induction f with
  | zero => intro n l h; omega
  | succ f ih =>
    intro n l h
    rw [Nat.toDigitsCore]
    by_cases h0 : n / 10 = 0
    · have hn : n < 10 := by omega
      rw [decChars_lt hn, Nat.mod_eq_of_lt hn]
      simp [h0]
    · have hn : ¬ n < 10 := by omega
      have hlt : n / 10 < f := by
        have := Nat.div_lt_self (show 0 < n by omega) (show 1 < 10 by omega)
        omega
      rw [if_neg h0, ih (n / 10) (Nat.digitChar (n % 10) :: l) hlt]
      rw [decChars_ge hn, List.append_assoc]
      rfl

/-- Fold the decimal digit characters back into the number they denote. -/
def parseDecAux (acc : Nat) (cs : List Char) : Nat :=
  cs.foldl (fun a c => a * 10 + (c.toNat - 48)) acc

theorem digitChar_toNat : ∀ d, d < 10 → (Nat.digitChar d).toNat = 48 + d := by decide

theorem parseDecAux_decChars (n : Nat) :
    ∀ acc, parseDecAux acc (decChars n) = acc * 10 ^ (decChars n).length + n := by
  induction n using Nat.strong_induction_on with
  | _ n ih =>
    intro acc
    by_cases h : n < 10
    · rw [decChars_lt h]
      simp only [parseDecAux, List.foldl, List.length, digitChar_toNat n h]
      omega
    · rw [decChars_ge h]
      have hdiv : n / 10 < n := Nat.div_lt_self (by omega) (by omega)
      have hmod : n % 10 < 10 := Nat.mod_lt _ (by omega)
      simp only [parseDecAux, List.foldl_append, List.foldl, List.length_append,
        List.length, digitChar_toNat _ hmod]
      have := ih (n / 10) hdiv acc
      simp only [parseDecAux] at this
      rw [this, pow_succ]
      have hnd : n / 10 * 10 + n % 10 = n := by omega
      calc (acc * 10 ^ (decChars (n / 10)).length + n / 10) * 10 + (48 + n % 10 - 48)
          = acc * (10 ^ (decChars (n / 10)).length * 10) + (n / 10 * 10 + n % 10) := by ring_nf; omega
        _ = acc * (10 ^ (decChars (n / 10)).length * 10) + n := by rw [hnd]

theorem parseDecAux_repr (n : Nat) : parseDecAux 0 (Nat.repr n).data = n := by
  have h1 : Nat.repr n = (Nat.toDigitsCore 10 (n + 1) n []).asString := rfl
  rw [h1, toDigitsCore_eq_decChars (n + 1) n [] (by omega), List.append_nil]
  have h2 : (decChars n).asString.data = decChars n := rfl
  rw [h2, parseDecAux_decChars n 0]
  omega

theorem natRepr_injective {m n : Nat} (h : Nat.repr m = Nat.repr n) : m = n := by
  have hm := parseDecAux_repr m
  rw [h, parseDecAux_repr n] at hm
  omega

/-! ### The remote store oracle

Each `fetch` to the GitHub API either resolves to a 2xx response carrying a
parsed JSON value (`ok`), resolves to a non-2xx response whose body text is
kept (`err`), or rejects/throws (`thrown`). -/

inductive FetchResult (α : Type) where
  | ok (v : α)
  | err (status : Nat) (text : String)
  | thrown (msg : String)
deriving DecidableEq

/-- A file object of the GitHub contents API: base64 `content` plus `sha`. -/
structure ContentsFile where
  content : String
  sha : String
deriving DecidableEq

/-- The `{object: {sha}}` payload of `GET git/ref/heads/main`. -/
structure RefObj where
  sha : String
deriving DecidableEq

/-- The fields of a pull-request object the handlers use. -/
structure PRInfo where
  html_url : String
deriving DecidableEq

/-- An entry of the repository listing used by `GET /files`. -/
structure FileEntry where
  name : String
  path : String
  type : String
deriving DecidableEq

/-- An entry of the open-PR listing used by `GET /prs`. -/
structure PRItem where
  number : Nat
  title : String
deriving DecidableEq

/-- Body of a contents-API `PUT` (`sha`/`branch` keys dropped when `undefined`). -/
structure PutBody where
  message : String
  content : String
  sha : Option String
  branch : Option String
deriving DecidableEq

/-- Oracle for the remote store: the result of each request the server can issue. -/
structure Store where
  getContents : String → FetchResult ContentsFile
  putContents : String → PutBody → FetchResult Unit
  getMainRef : FetchResult RefObj
  createRef : String → String → FetchResult Unit
  openPR : String → String → String → String → FetchResult PRInfo
  mergePR : Nat → FetchResult Unit
  getUser : FetchResult String
  listContents : FetchResult (List FileEntry)
  listPRs : FetchResult (List PRItem)

/-- The remote calls a handler issues, in order. -/
inductive RemoteCall where
  | getContents (path : String)
  | putContents (path : String) (body : PutBody)
  | getMainRef
  | createRef (ref : String) (sha : String)
  | openPR (title : String) (prBody : String) (head : String) (base : String)
  | mergePR (n : Nat)
  | getUser
  | listContents
  | listPRs
deriving DecidableEq

/-- The response the handler sends.  `res.json(...)` leaves the status at 200;
JSON fields that a handler never sets are `none`.  The `/file/*` handler's
`content` string and the image bytes are both kept as the decoded byte list. -/
structure Response where
  status : Nat := 200
  headers : List (String × String) := []
  success : Option String := none
  error : Option String := none
  url : Option String := none
  contentBytes : Option (List Nat) := none
  path : Option String := none
  sha : Option String := none
  bodyText : Option String := none
deriving DecidableEq

def jsonSuccess (m : String) : Response := { success := some m }

def jsonError (m : String) : Response := { error := some m }

/-! ### Credential resolution (`getAuthToken`) -/

/-- The three candidate sources of a bearer token for one request:
`process.env.GITHUB_TOKEN`, `req.body.token`, `req.query.token`. -/
structure Auth where
  envToken : Option String
  bodyToken : Option String
  queryToken : Option String
deriving DecidableEq

/-- JavaScript truthiness of an optional string (`undefined` and `""` are falsy). -/
def jsPresent : Option String → Bool
  | none => false
  | some s => !(s == "")

/-- `getAuthToken(req)`: env var first, then body token, then query token. -/
def getAuthToken (a : Auth) : Option String :=
  if jsPresent a.envToken then a.envToken
  else if jsPresent a.bodyToken then a.bodyToken
  else if jsPresent a.queryToken then a.queryToken
  else none

/-- `x || d` for an optional string `x` (JS falsy fallback). -/
def jsOrStr (v : Option String) (d : String) : String :=
  match v with
  | none => d
  | some s => if s == "" then d else s

/-- String interpolation of a possibly-`undefined` value. -/
def jsShow : Option String → String
  | none => "undefined"
  | some s => s

/-- Message of the `TypeError` thrown by `mainBranch.object.sha` when the
ref request did not return a ref object. -/
def typeErrorSha : String := "Cannot read properties of undefined (reading \x27sha\x27)"

/-! ### `POST /auth` and `POST /test-token` -/

def authHandler (a : Auth) : Response × List RemoteCall :=
  match getAuthToken a with
  | none => (jsonError "No token found. Set GITHUB_TOKEN in Vercel.", [])
  | some _ =>
    (jsonSuccess ("Connected via " ++
      (if jsPresent a.envToken then "Environment Variable" else "Session")), [])

def testTokenHandler (a : Auth) (st : Store) : Response × List RemoteCall :=
  match getAuthToken a with
  | none => (jsonError "No token set.", [])
  | some _ =>
    match st.getUser with
    | .ok login => (jsonSuccess ("Logged in as: " ++ login), [.getUser])
    | .err s t => (jsonError ("Token test failed: " ++ Nat.repr s ++ " - " ++ t), [.getUser])
    | .thrown m => (jsonError m, [.getUser])

/-! ### `GET /og-image.png` (the image proxy) -/

def ogImageHandler (a : Auth) (name : Option String) (st : Store) :
    Response × List RemoteCall :=
  match getAuthToken a with
  | none => ({ status := 401, bodyText := some "Missing GITHUB_TOKEN env var" }, [])
  | some _ =>
    let p := "images/" ++ jsOrStr name "og-image.png"
    match st.getContents p with
    | .ok f =>
      ({ status := 200,
         headers := [("Content-Type", "image/png"),
                     ("Cache-Control", "no-cache, no-store, must-revalidate"),
                     ("Pragma", "no-cache"),
                     ("Expires", "0")],
         contentBytes := some (decodeB64 f.content.data) }, [.getContents p])
    | .err _ _ => ({ status := 404, bodyText := some "Image not found" }, [.getContents p])
    | .thrown m => ({ status := 500, bodyText := some m }, [.getContents p])

/-! ### `POST /upload-image` -/

structure UploadReq where
  auth : Auth
  content : String
  filename : String

def uploadImageHandler (req : UploadReq) (now : Nat) (st : Store) :
    Response × List RemoteCall :=
  match getAuthToken req.auth with
  | none => (jsonError "GitHub not authenticated", [])
  | some _ =>
    let p := "images/" ++ req.filename
    match st.getContents p with
    | .thrown m => (jsonError m, [.getContents p])
    | res =>
      let sha : Option String := match res with
        | .ok f => if f.sha == "" then none else some f.sha
        | _ => none
      let body : PutBody :=
        { message := "Upload image " ++ req.filename, content := req.content,
          sha := sha, branch := none }
      match st.putContents p body with
      | .ok _ =>
        ({ success := some "Image uploaded!",
           url := some ("https://world-world.vercel.app/og-image.png?name=" ++
             req.filename ++ "&t=" ++ Nat.repr now) },
         [.getContents p, .putContents p body])
      | .err _ t => (jsonError ("GitHub upload failed: " ++ t),
          [.getContents p, .putContents p body])
      | .thrown m => (jsonError m, [.getContents p, .putContents p body])

/-! ### `POST /commit` -/

structure CommitReq where
  auth : Auth
  content : List Nat
  filePath : Option String
  sha : Option String

/-- The body of the commit `PUT`: content re-encoded to base64, `sha` as resolved. -/
def commitBody (req : CommitReq) (curSha : Option String) : PutBody :=
  { message := "Update " ++ jsShow req.filePath ++ " from web editor"
    content := (encodeB64 req.content).asString
    sha := curSha
    branch := none }

/-- The final `PUT` of the commit handler and its response mapping. -/
def commitPut (req : CommitReq) (st : Store) (p : String) (curSha : Option String)
    (calls : List RemoteCall) : Response × List RemoteCall :=
  match st.putContents p (commitBody req curSha) with
  | .ok _ => (jsonSuccess "Committed successfully!",
      calls ++ [.putContents p (commitBody req curSha)])
  | .err _ t => (jsonError t, calls ++ [.putContents p (commitBody req curSha)])
  | .thrown m => (jsonError m, calls ++ [.putContents p (commitBody req curSha)])

def commitHandler (req : CommitReq) (st : Store) : Response × List RemoteCall :=
  match getAuthToken req.auth with
  | none => (jsonError "GitHub not authenticated", [])
  | some _ =>
    let p := jsOrStr req.filePath "index.html"
    if jsPresent req.sha then
      commitPut req st p req.sha []
    else
      match st.getContents p with
      | .ok f => commitPut req st p (some f.sha) [.getContents p]
      | .err _ _ => commitPut req st p req.sha [.getContents p]
      | .thrown m => (jsonError m, [.getContents p])

/-! ### `POST /create-pr` -/

structure CreatePrReq where
  auth : Auth
  title : Option String
  body : Option String
  content : List Nat
  filePath : Option String

/-- Branch name derived from the invocation time: `web-editor-${Date.now()}`. -/
def branchName (now : Nat) : String := "web-editor-" ++ Nat.repr now

/-- The body of the on-branch `PUT` in the PR workflow. -/
def prPutBody (req : CreatePrReq) (fSha : Option String) (bn : String) : PutBody :=
  { message := "Update from web editor"
    content := (encodeB64 req.content).asString
    sha := fSha
    branch := some bn }

/-- Last step of the PR workflow: open the pull request and report its URL.
A non-2xx response is still `.json()`-parsed, so `pr.html_url` is `undefined`. -/
def createPrOpen (req : CreatePrReq) (st : Store) (bn : String)
    (calls : List RemoteCall) : Response × List RemoteCall :=
  let ttl := jsOrStr req.title "Update"
  let bd := jsOrStr req.body ""
  match st.openPR ttl bd bn "main" with
  | .ok pr => (jsonSuccess ("PR created: " ++ pr.html_url),
      calls ++ [.openPR ttl bd bn "main"])
  | .err _ _ => (jsonSuccess "PR created: undefined", calls ++ [.openPR ttl bd bn "main"])
  | .thrown m => (jsonError m, calls ++ [.openPR ttl bd bn "main"])

/-- Middle steps of the PR workflow: read the file's sha (an error response
leaves it `undefined`), write on the branch (the response is not checked). -/
def createPrWrite (req : CreatePrReq) (st : Store) (bn : String)
    (calls : List RemoteCall) : Response × List RemoteCall :=
  let p := jsOrStr req.filePath "index.html"
  match st.getContents p with
  | .thrown m => (jsonError m, calls ++ [.getContents p])
  | res =>
    let fSha : Option String := match res with
      | .ok f => some f.sha
      | _ => none
    match st.putContents p (prPutBody req fSha bn) with
    | .thrown m => (jsonError m, calls ++ [.getContents p, .putContents p (prPutBody req fSha bn)])
    | _ => createPrOpen req st bn
        (calls ++ [.getContents p, .putContents p (prPutBody req fSha bn)])

def createPrHandler (req : CreatePrReq) (now : Nat) (st : Store) :
    Response × List RemoteCall :=
  match getAuthToken req.auth with
  | none => (jsonError "GitHub not authenticated", [])
  | some _ =>
    let bn := branchName now
    match st.getMainRef with
    | .thrown m => (jsonError m, [.getMainRef])
    | .err _ _ => (jsonError typeErrorSha, [.getMainRef])
    | .ok r =>
      match st.createRef ("refs/heads/" ++ bn) r.sha with
      | .thrown m => (jsonError m, [.getMainRef, .createRef ("refs/heads/" ++ bn) r.sha])
      | _ => createPrWrite req st bn [.getMainRef, .createRef ("refs/heads/" ++ bn) r.sha]

/-! ### `POST /merge-pr` -/

def mergePrHandler (a : Auth) (prNumber : Nat) (st : Store) : Response × List RemoteCall :=
  match getAuthToken a with
  | none => (jsonError "GitHub not authenticated", [])
  | some _ =>
    match st.mergePR prNumber with
    | .ok _ => (jsonSuccess ("PR #" ++ Nat.repr prNumber ++ " merged!"), [.mergePR prNumber])
    | .err _ t => (jsonError t, [.mergePR prNumber])
    | .thrown m => (jsonError m, [.mergePR prNumber])

/-! ### `GET /file/*` -/

def fileGetHandler (a : Auth) (filePath : String) (st : Store) :
    Response × List RemoteCall :=
  match getAuthToken a with
  | none => (jsonError "GitHub not authenticated", [])
  | some _ =>
    match st.getContents filePath with
    | .ok f =>
      ({ contentBytes := some (decodeB64 f.content.data)
         path := some filePath
         sha := some f.sha }, [.getContents filePath])
    | .err _ _ => (jsonError "File not found", [.getContents filePath])
    | .thrown m => (jsonError m, [.getContents filePath])

/-! ### `GET /files` and `GET /prs` (listing pages) -/

def fileRow (f : FileEntry) : String :=
  let icon := if f.type == "dir" then "üìÅ" else "üìÑ"
  if f.type == "file" then
    "<div style=\"margin:5px;\"><a href=\"#\" onclick=\"loadFile(\x27" ++ f.path ++
      "\x27); return false;\">" ++ icon ++ " " ++ f.name ++ "</a></div>"
  else
    "<div style=\"margin:5px;\">" ++ icon ++ " " ++ f.name ++ "/</div>"

def filesHandler (a : Auth) (st : Store) : Response × List RemoteCall :=
  match getAuthToken a with
  | none => ({ bodyText := some "<p>Set GITHUB_TOKEN env var</p>" }, [])
  | some _ =>
    match st.listContents with
    | .ok files =>
      ({ bodyText := some (files.foldl (fun h f => h ++ fileRow f)
          "<h3>Repository Files</h3>") }, [.listContents])
    | .err s _ => ({ bodyText := some ("<p>Error: " ++ Nat.repr s ++ "</p>") }, [.listContents])
    | .thrown m => ({ bodyText := some ("<p>Error: " ++ m ++ "</p>") }, [.listContents])

def prRow (pr : PRItem) : String :=
  "\n                <div style=\"border:1px solid #ccc; margin:10px; padding:10px;\">\n" ++
  "                    <h4>PR #" ++ Nat.repr pr.number ++ ": " ++ pr.title ++ "</h4>\n" ++
  "                    <form hx-post=\"/merge-pr\" hx-target=\"#status\" hx-swap=\"innerHTML\">\n" ++
  "                        <input type=\"hidden\" name=\"prNumber\" value=\"" ++
    Nat.repr pr.number ++ "\">\n" ++
  "                        <button type=\"submit\">merge pr</button>\n" ++
  "                    </form>\n                </div>"

/-- `GET /prs` does not check `prsResponse.ok`; an error body has no `.length`
and no `.forEach`, so the render loop throws a `TypeError` that the catch turns
into the error page. -/
def prsHandler (a : Auth) (st : Store) : Response × List RemoteCall :=
  match getAuthToken a with
  | none => ({ bodyText := some "<p>Set GITHUB_TOKEN env var</p>" }, [])
  | some _ =>
    match st.listPRs with
    | .ok [] => ({ bodyText := some "<p>No open PRs</p>" }, [.listPRs])
    | .ok prs =>
      ({ bodyText := some (prs.foldl (fun h pr => h ++ prRow pr) "<h3>Open PRs</h3>") },
       [.listPRs])
    | .err _ _ =>
      ({ bodyText := some "<p>Error: prs.forEach is not a function</p>" }, [.listPRs])
    | .thrown m => ({ bodyText := some ("<p>Error: " ++ m ++ "</p>") }, [.listPRs])

/-! ### Helper lemmas and concrete fixtures -/

theorem asString_data (l : List Char) : (List.asString l).data = l := rfl

theorem branchName_injective {t1 t2 : Nat} (h : branchName t1 = branchName t2) : t1 = t2 := by
  have hdata := congrArg String.data h
  rw [branchName, branchName, String.data_append, String.data_append] at hdata
  have hr := List.append_cancel_left hdata
  have h1 := parseDecAux_repr t1
  rw [show (Nat.repr t1).data = (Nat.repr t2).data from hr, parseDecAux_repr t2] at h1
  omega

/-- A store where every remote call succeeds. -/
def stOk : Store :=
  { getContents := fun _ => .ok ⟨"aGVsbG8=", "sha0"⟩
    putContents := fun _ _ => .ok ()
    getMainRef := .ok ⟨"mainsha"⟩
    createRef := fun _ _ => .ok ()
    openPR := fun _ _ _ _ => .ok ⟨"https://github.com/compusophy/world-world/pull/1"⟩
    mergePR := fun _ => .ok ()
    getUser := .ok "compusophy"
    listContents := .ok []
    listPRs := .ok [] }

/-- A store where the target file is absent (the contents read returns 404). -/
def stAbsent : Store := { stOk with getContents := fun _ => .err 404 "Not Found" }

/-- A store where branch creation fails with a 422 collision. -/
def stBranchFail : Store :=
  { stOk with createRef := fun _ _ => .err 422 "Reference already exists" }

def authEnv : Auth := ⟨some "tok", none, none⟩

/-! ### C3: credential precedence -/

/-- Claim C3: credential resolution returns the first present source in the order
process-wide env token, request-body token, query token; with all three
present the env token wins, with only body and query the body token wins,
and with none present the result is `none`. -/
theorem c3_token_precedence (e b q : String) (he : e ≠ "") (hb : b ≠ "") (hq : q ≠ "") :
    getAuthToken ⟨some e, some b, some q⟩ = some e ∧
    getAuthToken ⟨none, some b, some q⟩ = some b ∧
    getAuthToken ⟨none, none, some q⟩ = some q ∧
    getAuthToken ⟨none, none, none⟩ = none := by
  refine ⟨?_, ?_, ?_, rfl⟩ <;> simp [getAuthToken, jsPresent, he, hb, hq]

theorem c3_token_precedence_witness :
    ("E" : String) ≠ "" ∧ ("B" : String) ≠ "" ∧ ("Q" : String) ≠ "" ∧
    (getAuthToken ⟨some "E", some "B", some "Q"⟩ = some "E" ∧
     getAuthToken ⟨none, some "B", some "Q"⟩ = some "B" ∧
     getAuthToken ⟨none, none, some "Q"⟩ = some "Q" ∧
     getAuthToken ⟨none, none, none⟩ = none) :=
  ⟨by decide, by decide, by decide,
   c3_token_precedence "E" "B" "Q" (by decide) (by decide) (by decide)⟩

/-! ### C4: base64 write/read round-trip -/

/-- Claim C4: base64 encoding on write and decoding on read round-trip losslessly
for arbitrary byte content: `decodeB64 (encodeB64 bs) = bs`; the commit
handler's `PUT` body carries exactly `encodeB64` of the request content, and
the image-proxy read of a file stored that way returns exactly the original
bytes. -/
theorem c4_base64_roundtrip (bs : List Nat) (h : ∀ x ∈ bs, x < 256) :
    decodeB64 (encodeB64 bs) = bs ∧
    (∀ req : CommitReq, req.content = bs → ∀ curSha,
      decodeB64 ((commitBody req curSha).content.data) = bs) ∧
    (∀ (a : Auth) (nm : Option String) (st : Store) (tok : String) (f : ContentsFile),
      getAuthToken a = some tok →
      st.getContents ("images/" ++ jsOrStr nm "og-image.png") = .ok f →
      f.content = (encodeB64 bs).asString →
      (ogImageHandler a nm st).1.contentBytes = some bs) := by
  have hrt := decodeB64_encodeB64 bs h
  refine ⟨hrt, ?_, ?_⟩
  · intro req hreq curSha
    simp only [commitBody, asString_data, hreq, hrt]
  · intro a nm st tok f htok hget hcont
    simp only [ogImageHandler, htok, hget, hcont, asString_data, hrt]

theorem c4_base64_roundtrip_witness :
    (∀ x ∈ [0, 255, 77, 10], x < 256) ∧
    decodeB64 (encodeB64 [0, 255, 77, 10]) = [0, 255, 77, 10] :=
  ⟨by decide, (c4_base64_roundtrip [0, 255, 77, 10] (by decide)).1⟩

/-! ### C8: image proxy cache headers -/

/-- Claim C8: whenever the image proxy serves fetched content, its response carries
`Cache-Control: no-cache, no-store, must-revalidate`, regardless of what that
content is. -/
theorem c8_og_image_no_cache (a : Auth) (name : Option String) (st : Store) (tok : String)
    (f : ContentsFile) (htok : getAuthToken a = some tok)
    (hf : st.getContents ("images/" ++ jsOrStr name "og-image.png") = .ok f) :
    ("Cache-Control", "no-cache, no-store, must-revalidate") ∈
      (ogImageHandler a name st).1.headers := by
  simp [ogImageHandler, htok, hf]

theorem c8_og_image_no_cache_witness :
    getAuthToken authEnv = some "tok" ∧
    stOk.getContents ("images/" ++ jsOrStr none "og-image.png") = .ok ⟨"aGVsbG8=", "sha0"⟩ ∧
    ("Cache-Control", "no-cache, no-store, must-revalidate") ∈
      (ogImageHandler authEnv none stOk).1.headers :=
  ⟨by decide, rfl, c8_og_image_no_cache authEnv none stOk "tok" ⟨"aGVsbG8=", "sha0"⟩ rfl rfl⟩

/-! ### C9: image proxy outcome taxonomy -/

/-- Claim C9: the image proxy answers 401 exactly when no credential resolves; with
a credential, an error response from the remote read yields 404 (in particular
an absent object), and a successful read yields 200 with the base64-decoded
bytes. -/
theorem c9_og_image_outcomes (a : Auth) (name : Option String) (st : Store) :
    ((ogImageHandler a name st).1.status = 401 ↔ getAuthToken a = none) ∧
    (∀ s t, getAuthToken a ≠ none →
      st.getContents ("images/" ++ jsOrStr name "og-image.png") = .err s t →
      (ogImageHandler a name st).1.status = 404) ∧
    (∀ f, getAuthToken a ≠ none →
      st.getContents ("images/" ++ jsOrStr name "og-image.png") = .ok f →
      (ogImageHandler a name st).1.status = 200 ∧
      (ogImageHandler a name st).1.contentBytes = some (decodeB64 f.content.data)) := by
  refine ⟨?_, ?_, ?_⟩
  · rcases htok : getAuthToken a with _ | tok
    · simp [ogImageHandler, htok]
    · rcases hget : st.getContents ("images/" ++ jsOrStr name "og-image.png")
        with f | ⟨s, t⟩ | m <;>
        simp [ogImageHandler, htok, hget]
  · intro s t htok hget
    rcases htok' : getAuthToken a with _ | tok
    · exact absurd htok' htok
    · simp [ogImageHandler, htok', hget]
  · intro f htok hget
    rcases htok' : getAuthToken a with _ | tok
    · exact absurd htok' htok
    · simp [ogImageHandler, htok', hget]

theorem c9_og_image_outcomes_witness :
    (getAuthToken authEnv ≠ none) ∧
    ((ogImageHandler authEnv none stAbsent).1.status = 404) ∧
    ((ogImageHandler ⟨none, none, none⟩ none stOk).1.status = 401) :=
  ⟨by decide,
   (c9_og_image_outcomes authEnv none stAbsent).2.1 404 "Not Found" (by decide) rfl,
   ((c9_og_image_outcomes ⟨none, none, none⟩ none stOk).1).mpr rfl⟩

/-! ### C1: commit auto-resolves the version token -/

/-- Claim C1: when the caller omits `sha`, the commit handler first reads the target
path; a successful read makes the write carry the read `sha`, while an error
response (in particular 404, file absent) leaves the write without a version
constraint, and in that case a successful write answers
`{success: "Committed successfully!"}`. -/
theorem c1_commit_auto_resolve (req : CommitReq) (st : Store) (tok : String)
    (htok : getAuthToken req.auth = some tok) (hsha : req.sha = none) :
    (∀ f, st.getContents (jsOrStr req.filePath "index.html") = .ok f →
      (commitHandler req st).2 =
        [.getContents (jsOrStr req.filePath "index.html"),
         .putContents (jsOrStr req.filePath "index.html") (commitBody req (some f.sha))]) ∧
    (∀ s t, st.getContents (jsOrStr req.filePath "index.html") = .err s t →
      st.putContents (jsOrStr req.filePath "index.html") (commitBody req none) = .ok () →
      commitHandler req st =
        (jsonSuccess "Committed successfully!",
         [.getContents (jsOrStr req.filePath "index.html"),
          .putContents (jsOrStr req.filePath "index.html") (commitBody req none)])) := by
  constructor
  · intro f hget
    rcases hput : st.putContents (jsOrStr req.filePath "index.html") (commitBody req (some f.sha))
      with _ | ⟨s, t⟩ | m <;>
      simp [commitHandler, commitPut, htok, hsha, jsPresent, hget, hput]
  · intro s t hget hput
    simp [commitHandler, commitPut, htok, hsha, jsPresent, hget, hput]

/-- Concrete commit request of the C1 scenario: `content="hello"` (UTF-8 bytes),
`filePath="a.txt"`, no `sha`. -/
def reqCommitHello : CommitReq := ⟨authEnv, [104, 101, 108, 108, 111], some "a.txt", none⟩

theorem c1_commit_auto_resolve_witness :
    getAuthToken reqCommitHello.auth = some "tok" ∧ reqCommitHello.sha = none ∧
    commitHandler reqCommitHello stAbsent =
      (jsonSuccess "Committed successfully!",
       [.getContents "a.txt", .putContents "a.txt" (commitBody reqCommitHello none)]) :=
  ⟨by decide, rfl,
   (c1_commit_auto_resolve reqCommitHello stAbsent "tok" (by decide) rfl).2
     404 "Not Found" rfl rfl⟩

/-! ### C5: no credential, no remote call -/

/-- Claim C5: when no credential resolves, every handler returns its authentication
error and issues no remote call at all. -/
theorem c5_no_token_no_remote_calls (a : Auth) (st : Store)
    (c : List Nat) (fp sh ti bo nm : Option String) (bc fn p2 : String) (now n : Nat)
    (h : getAuthToken a = none) :
    commitHandler ⟨a, c, fp, sh⟩ st = (jsonError "GitHub not authenticated", []) ∧
    createPrHandler ⟨a, ti, bo, c, fp⟩ now st = (jsonError "GitHub not authenticated", []) ∧
    mergePrHandler a n st = (jsonError "GitHub not authenticated", []) ∧
    uploadImageHandler ⟨a, bc, fn⟩ now st = (jsonError "GitHub not authenticated", []) ∧
    ogImageHandler a nm st =
      ({ status := 401, bodyText := some "Missing GITHUB_TOKEN env var" }, []) ∧
    fileGetHandler a p2 st = (jsonError "GitHub not authenticated", []) ∧
    testTokenHandler a st = (jsonError "No token set.", []) ∧
    authHandler a = (jsonError "No token found. Set GITHUB_TOKEN in Vercel.", []) ∧
    filesHandler a st = ({ bodyText := some "<p>Set GITHUB_TOKEN env var</p>" }, []) ∧
    prsHandler a st = ({ bodyText := some "<p>Set GITHUB_TOKEN env var</p>" }, []) := by
  refine ⟨?_, ?_, ?_, ?_, ?_, ?_, ?_, ?_, ?_, ?_⟩ <;>
    simp [commitHandler, createPrHandler, mergePrHandler, uploadImageHandler, ogImageHandler,
      fileGetHandler, testTokenHandler, authHandler, filesHandler, prsHandler, h]

theorem c5_no_token_no_remote_calls_witness :
    getAuthToken ⟨none, none, none⟩ = none ∧
    commitHandler ⟨⟨none, none, none⟩, [], none, none⟩ stOk =
      (jsonError "GitHub not authenticated", []) ∧
    ogImageHandler ⟨none, none, none⟩ none stOk =
      ({ status := 401, bodyText := some "Missing GITHUB_TOKEN env var" }, []) :=
  ⟨rfl,
   (c5_no_token_no_remote_calls ⟨none, none, none⟩ stOk [] none none none none none
     "" "" "" 0 0 rfl).1,
   (c5_no_token_no_remote_calls ⟨none, none, none⟩ stOk [] none none none none none
     "" "" "" 0 0 rfl).2.2.2.2.1⟩

/-! ### C6: uniform 200-status `{success}|{error}` envelope -/

/-- A response that went through `res.json` with a success or error field:
status 200 and one of the two envelope fields set. -/
def envelope200 (r : Response) : Prop :=
  r.status = 200 ∧ (r.success.isSome ∨ r.error.isSome)

theorem envelope200_success (m : String) : envelope200 (jsonSuccess m) := by
  simp [envelope200, jsonSuccess]

theorem envelope200_error (m : String) : envelope200 (jsonError m) := by
  simp [envelope200, jsonError]

theorem envelope200_commitPut (req : CommitReq) (st : Store) (p : String)
    (curSha : Option String) (calls : List RemoteCall) :
    envelope200 (commitPut req st p curSha calls).1 := by
  rcases h : st.putContents p (commitBody req curSha) with _ | ⟨s, t⟩ | m <;>
    simp [commitPut, h, envelope200_success, envelope200_error]

theorem envelope200_commit (req : CommitReq) (st : Store) :
    envelope200 (commitHandler req st).1 := by
  rcases htok : getAuthToken req.auth with _ | tok
  · simp [commitHandler, htok, envelope200_error]
  · cases hs : jsPresent req.sha
    · rcases hget : st.getContents (jsOrStr req.filePath "index.html") with f | ⟨s, t⟩ | m <;>
        simp [commitHandler, htok, hs, hget, envelope200_commitPut, envelope200_error]
    · simp [commitHandler, htok, hs, envelope200_commitPut]

theorem envelope200_createPrOpen (req : CreatePrReq) (st : Store) (bn : String)
    (calls : List RemoteCall) : envelope200 (createPrOpen req st bn calls).1 := by
  rcases h : st.openPR (jsOrStr req.title "Update") (jsOrStr req.body "") bn "main"
    with pr | ⟨s, t⟩ | m <;>
    simp [createPrOpen, h, envelope200_success, envelope200_error]

theorem envelope200_createPrWrite (req : CreatePrReq) (st : Store) (bn : String)
    (calls : List RemoteCall) : envelope200 (createPrWrite req st bn calls).1 := by
  rcases hget : st.getContents (jsOrStr req.filePath "index.html") with f | ⟨s, t⟩ | m <;>
    simp only [createPrWrite, hget] <;>
    first
    | exact envelope200_error _
    | (rcases hput : st.putContents (jsOrStr req.filePath "index.html") _
        with _ | ⟨s2, t2⟩ | m2 <;>
       simp [hput, envelope200_createPrOpen, envelope200_error])

theorem envelope200_createPr (req : CreatePrReq) (now : Nat) (st : Store) :
    envelope200 (createPrHandler req now st).1 := by
  rcases htok : getAuthToken req.auth with _ | tok
  · simp [createPrHandler, htok, envelope200_error]
  · rcases hmain : st.getMainRef with r | ⟨s, t⟩ | m
    · rcases hbr : st.createRef ("refs/heads/" ++ branchName now) r.sha with _ | ⟨s2, t2⟩ | m2 <;>
        simp [createPrHandler, htok, hmain, hbr, envelope200_createPrWrite, envelope200_error]
    · simp [createPrHandler, htok, hmain, envelope200_error]
    · simp [createPrHandler, htok, hmain, envelope200_error]

theorem envelope200_mergePr (a : Auth) (n : Nat) (st : Store) :
    envelope200 (mergePrHandler a n st).1 := by
  rcases htok : getAuthToken a with _ | tok
  · simp [mergePrHandler, htok, envelope200_error]
  · rcases h : st.mergePR n with _ | ⟨s, t⟩ | m <;>
      simp [mergePrHandler, htok, h, envelope200_success, envelope200_error]

theorem envelope200_upload (req : UploadReq) (now : Nat) (st : Store) :
    envelope200 (uploadImageHandler req now st).1 := by
  rcases htok : getAuthToken req.auth with _ | tok
  · simp [uploadImageHandler, htok, envelope200_error]
  · rcases hget : st.getContents ("images/" ++ req.filename) with f | ⟨s, t⟩ | m <;>
      simp only [uploadImageHandler, htok, hget] <;>
      first
      | exact envelope200_error _
      | (rcases hput : st.putContents ("images/" ++ req.filename) _ with _ | ⟨s2, t2⟩ | m2 <;>
         simp [hput, envelope200, jsonSuccess, jsonError])

/-- Claim C6: all four mutating endpoints always answer with status 200 and a body
that is a success or error envelope (thrown failures included); when the final
remote write of `/commit` or of `/merge-pr` fails, the error field carries the
remote store's raw error body. -/
theorem c6_uniform_envelope (creq : CommitReq) (preq : CreatePrReq) (ureq : UploadReq)
    (a : Auth) (st : Store) (now n : Nat) :
    envelope200 (commitHandler creq st).1 ∧
    envelope200 (createPrHandler preq now st).1 ∧
    envelope200 (mergePrHandler a n st).1 ∧
    envelope200 (uploadImageHandler ureq now st).1 ∧
    (∀ p curSha calls s t, st.putContents p (commitBody creq curSha) = .err s t →
      (commitPut creq st p curSha calls).1 = jsonError t) ∧
    (∀ tok s t, getAuthToken a = some tok → st.mergePR n = .err s t →
      (mergePrHandler a n st).1 = jsonError t) ∧
    (∀ tok m, getAuthToken a = some tok → st.mergePR n = .thrown m →
      (mergePrHandler a n st).1 = jsonError m) := by
  refine ⟨envelope200_commit creq st, envelope200_createPr preq now st,
    envelope200_mergePr a n st, envelope200_upload ureq now st, ?_, ?_, ?_⟩
  · intro p curSha calls s t h
    simp [commitPut, h]
  · intro tok s t htok h
    simp [mergePrHandler, htok, h]
  · intro tok m htok h
    simp [mergePrHandler, htok, h]

theorem c6_uniform_envelope_witness :
    stAbsent.putContents "a.txt" (commitBody reqCommitHello none) ≠ .err 409 "Conflict" ∧
    envelope200 (commitHandler reqCommitHello stAbsent).1 ∧
    envelope200 (createPrHandler ⟨authEnv, none, none, [], none⟩ 7 stOk).1 ∧
    (∀ tok s t, getAuthToken authEnv = some tok → stOk.mergePR 7 = .err s t →
      (mergePrHandler authEnv 7 stOk).1 = jsonError t) :=
  ⟨by decide,
   (c6_uniform_envelope reqCommitHello ⟨authEnv, none, none, [], none⟩ ⟨authEnv, "", ""⟩
     authEnv stAbsent 7 7).1,
   (c6_uniform_envelope reqCommitHello ⟨authEnv, none, none, [], none⟩ ⟨authEnv, "", ""⟩
     authEnv stOk 7 7).2.1,
   (c6_uniform_envelope reqCommitHello ⟨authEnv, none, none, [], none⟩ ⟨authEnv, "", ""⟩
     authEnv stOk 7 7).2.2.2.2.2.1⟩

/-! ### C2: PR workflow behaviour when a step fails -/

/-- Concrete PR request: no title, no body, empty content, default path. -/
def reqPr : CreatePrReq := ⟨authEnv, none, none, [], none⟩

/-- Claim C2 counterexample: with branch creation answering 422
`Reference already exists`, the handler does not abort: it still issues the
on-branch write and the PR-open call and reports success, contradicting the
claim that a CreateBranch failure ends the workflow with an error result. -/
theorem c2_counterexample :
    stBranchFail.createRef ("refs/heads/" ++ branchName 111) "mainsha" =
      .err 422 "Reference already exists" ∧
    (createPrHandler reqPr 111 stBranchFail).1.error = none ∧
    (createPrHandler reqPr 111 stBranchFail).1 =
      jsonSuccess "PR created: https://github.com/compusophy/world-world/pull/1" ∧
    (createPrHandler reqPr 111 stBranchFail).2 =
      [.getMainRef, .createRef ("refs/heads/" ++ branchName 111) "mainsha",
       .getContents "index.html",
       .putContents "index.html" (prPutBody reqPr (some "sha0") (branchName 111)),
       .openPR "Update" "" (branchName 111) "main"] := by
  refine ⟨rfl, rfl, rfl, rfl⟩

/-- Claim C2 (amended): the PR workflow aborts with an error result when the
base-ref read fails (the subsequent field access throws) or when a call
throws, but a CreateBranch call that merely answers a failure status is
ignored: the workflow still performs the write and the PR-open and, when the
PR-open response is ok, returns success with the pull request's remote URL. -/
theorem c2_amended_no_abort_on_branch_failure (req : CreatePrReq) (now : Nat) (st : Store)
    (tok : String) (htok : getAuthToken req.auth = some tok) :
    (∀ s t, st.getMainRef = .err s t →
      createPrHandler req now st = (jsonError typeErrorSha, [.getMainRef])) ∧
    (∀ r s t f pr, st.getMainRef = .ok r →
      st.createRef ("refs/heads/" ++ branchName now) r.sha = .err s t →
      st.getContents (jsOrStr req.filePath "index.html") = .ok f →
      st.putContents (jsOrStr req.filePath "index.html")
        (prPutBody req (some f.sha) (branchName now)) = .ok () →
      st.openPR (jsOrStr req.title "Update") (jsOrStr req.body "") (branchName now) "main" =
        .ok pr →
      createPrHandler req now st =
        (jsonSuccess ("PR created: " ++ pr.html_url),
         [.getMainRef, .createRef ("refs/heads/" ++ branchName now) r.sha,
          .getContents (jsOrStr req.filePath "index.html"),
          .putContents (jsOrStr req.filePath "index.html")
            (prPutBody req (some f.sha) (branchName now)),
          .openPR (jsOrStr req.title "Update") (jsOrStr req.body "")
            (branchName now) "main"])) := by
  constructor
  · intro s t hmain
    simp [createPrHandler, htok, hmain]
  · intro r s t f pr hmain hbr hget hput hopen
    simp [createPrHandler, createPrWrite, createPrOpen, htok, hmain, hbr, hget, hput, hopen]

theorem c2_amended_witness :
    getAuthToken reqPr.auth = some "tok" ∧
    createPrHandler reqPr 111 stBranchFail =
      (jsonSuccess "PR created: https://github.com/compusophy/world-world/pull/1",
       [.getMainRef, .createRef ("refs/heads/" ++ branchName 111) "mainsha",
        .getContents "index.html",
        .putContents "index.html" (prPutBody reqPr (some "sha0") (branchName 111)),
        .openPR "Update" "" (branchName 111) "main"]) :=
  ⟨by decide,
   (c2_amended_no_abort_on_branch_failure reqPr 111 stBranchFail "tok" (by decide)).2
     ⟨"mainsha"⟩ 422 "Reference already exists" ⟨"aGVsbG8=", "sha0"⟩
     ⟨"https://github.com/compusophy/world-world/pull/1"⟩ rfl rfl rfl rfl rfl⟩

/-! ### C7: branch isolation of two PR invocations -/

/-- Claim C7: two PR-workflow invocations with distinct timestamps create branches
with distinct names, both forked from the same base commit read from the
default branch, and their on-branch writes target distinct branches. -/
theorem c7_branch_isolation (t1 t2 : Nat) (hne : t1 ≠ t2) (req : CreatePrReq) (st : Store)
    (tok : String) (r : RefObj) (f : ContentsFile) (pr : PRInfo)
    (htok : getAuthToken req.auth = some tok)
    (hmain : st.getMainRef = .ok r)
    (hbr : ∀ ref sha, st.createRef ref sha = .ok ())
    (hget : st.getContents (jsOrStr req.filePath "index.html") = .ok f)
    (hput : ∀ p b, st.putContents p b = .ok ())
    (hopen : ∀ w x y z, st.openPR w x y z = .ok pr) :
    branchName t1 ≠ branchName t2 ∧
    (createPrHandler req t1 st).2 =
      [.getMainRef, .createRef ("refs/heads/" ++ branchName t1) r.sha,
       .getContents (jsOrStr req.filePath "index.html"),
       .putContents (jsOrStr req.filePath "index.html")
         (prPutBody req (some f.sha) (branchName t1)),
       .openPR (jsOrStr req.title "Update") (jsOrStr req.body "") (branchName t1) "main"] ∧
    (createPrHandler req t2 st).2 =
      [.getMainRef, .createRef ("refs/heads/" ++ branchName t2) r.sha,
       .getContents (jsOrStr req.filePath "index.html"),
       .putContents (jsOrStr req.filePath "index.html")
         (prPutBody req (some f.sha) (branchName t2)),
       .openPR (jsOrStr req.title "Update") (jsOrStr req.body "") (branchName t2) "main"] ∧
    (prPutBody req (some f.sha) (branchName t1)).branch ≠
      (prPutBody req (some f.sha) (branchName t2)).branch := by
  have hbn : branchName t1 ≠ branchName t2 := fun h => hne (branchName_injective h)
  refine ⟨hbn, ?_, ?_, ?_⟩
  · simp [createPrHandler, createPrWrite, createPrOpen, htok, hmain, hbr, hget, hput, hopen]
  · simp [createPrHandler, createPrWrite, createPrOpen, htok, hmain, hbr, hget, hput, hopen]
  · simpa [prPutBody] using hbn

theorem c7_branch_isolation_witness :
    (3 : Nat) ≠ 5 ∧ getAuthToken reqPr.auth = some "tok" ∧
    branchName 3 ≠ branchName 5 ∧
    (createPrHandler reqPr 3 stOk).2 =
      [.getMainRef, .createRef ("refs/heads/" ++ branchName 3) "mainsha",
       .getContents "index.html",
       .putContents "index.html" (prPutBody reqPr (some "sha0") (branchName 3)),
       .openPR "Update" "" (branchName 3) "main"] :=
  ⟨by decide, by decide,
   (c7_branch_isolation 3 5 (by decide) reqPr stOk "tok" ⟨"mainsha"⟩ ⟨"aGVsbG8=", "sha0"⟩
     ⟨"https://github.com/compusophy/world-world/pull/1"⟩ (by decide) rfl
     (fun _ _ => rfl) rfl (fun _ _ => rfl) (fun _ _ _ _ => rfl)).1,
   (c7_branch_isolation 3 5 (by decide) reqPr stOk "tok" ⟨"mainsha"⟩ ⟨"aGVsbG8=", "sha0"⟩
     ⟨"https://github.com/compusophy/world-world/pull/1"⟩ (by decide) rfl
     (fun _ _ => rfl) rfl (fun _ _ => rfl) (fun _ _ _ _ => rfl)).2.1⟩

/-! ### C10: default path `index.html`, one path per invocation -/

/-- The contents-API path a remote call targets, if any. -/
def callPath : RemoteCall → Option String
  | .getContents p => some p
  | .putContents p _ => some p
  | _ => none

/-- All contents-API paths a call trace touches. -/
def pathsOf (calls : List RemoteCall) : List String := calls.filterMap callPath

theorem commitPut_paths (req : CommitReq) (st : Store) (p : String) (curSha : Option String)
    (calls : List RemoteCall) :
    pathsOf (commitPut req st p curSha calls).2 = pathsOf calls ++ [p] := by
  rcases h : st.putContents p (commitBody req curSha) with _ | ⟨s, t⟩ | m <;>
    simp [commitPut, h, pathsOf, callPath]

theorem commit_paths (req : CommitReq) (st : Store) :
    ∀ p ∈ pathsOf (commitHandler req st).2, p = jsOrStr req.filePath "index.html" := by
  intro p hp
  rcases htok : getAuthToken req.auth with _ | tok
  · simp [commitHandler, htok, pathsOf] at hp
  · cases hs : jsPresent req.sha
    · rcases hget : st.getContents (jsOrStr req.filePath "index.html") with f | ⟨s, t⟩ | m
      · have he : (commitHandler req st).2 =
            (commitPut req st (jsOrStr req.filePath "index.html") (some f.sha)
              [.getContents (jsOrStr req.filePath "index.html")]).2 := by
          simp [commitHandler, htok, hs, hget]
        rw [he, commitPut_paths] at hp
        simp [pathsOf, callPath] at hp
        tauto
      · have he : (commitHandler req st).2 =
            (commitPut req st (jsOrStr req.filePath "index.html") req.sha
              [.getContents (jsOrStr req.filePath "index.html")]).2 := by
          simp [commitHandler, htok, hs, hget]
        rw [he, commitPut_paths] at hp
        simp [pathsOf, callPath] at hp
        tauto
      · have he : (commitHandler req st).2 =
            [.getContents (jsOrStr req.filePath "index.html")] := by
          simp [commitHandler, htok, hs, hget]
        rw [he] at hp
        simpa [pathsOf, callPath] using hp
    · have he : (commitHandler req st).2 =
          (commitPut req st (jsOrStr req.filePath "index.html") req.sha []).2 := by
        simp [commitHandler, htok, hs]
      rw [he, commitPut_paths] at hp
      simpa [pathsOf, callPath] using hp

theorem createPrOpen_paths (req : CreatePrReq) (st : Store) (bn : String)
    (calls : List RemoteCall) :
    pathsOf (createPrOpen req st bn calls).2 = pathsOf calls := by
  rcases h : st.openPR (jsOrStr req.title "Update") (jsOrStr req.body "") bn "main"
    with pr | ⟨s, t⟩ | m <;>
    simp [createPrOpen, h, pathsOf, callPath]

theorem createPrWrite_fSha_paths (req : CreatePrReq) (st : Store) (bn : String)
    (calls : List RemoteCall) (fSha : Option String) (q : String)
    (hq : q ∈ pathsOf (calls ++
      [.getContents (jsOrStr req.filePath "index.html"),
       .putContents (jsOrStr req.filePath "index.html") (prPutBody req fSha bn)])) :
    q ∈ pathsOf calls ∨ q = jsOrStr req.filePath "index.html" := by
  simp [pathsOf, callPath, List.filterMap_append] at hq
  rcases hq with h | h
  · exact Or.inl (by simpa [pathsOf, callPath] using h)
  · exact Or.inr h

theorem createPrWrite_paths (req : CreatePrReq) (st : Store) (bn : String)
    (calls : List RemoteCall) :
    ∀ q ∈ pathsOf (createPrWrite req st bn calls).2,
      q ∈ pathsOf calls ∨ q = jsOrStr req.filePath "index.html" := by
  intro q hq
  rcases hget : st.getContents (jsOrStr req.filePath "index.html") with f | ⟨s, t⟩ | m
  · rcases hput : st.putContents (jsOrStr req.filePath "index.html")
        (prPutBody req (some f.sha) bn) with v | ⟨s2, t2⟩ | m2
    all_goals
      have he : (createPrWrite req st bn calls).2 =
          (createPrOpen req st bn (calls ++
            [.getContents (jsOrStr req.filePath "index.html"),
             .putContents (jsOrStr req.filePath "index.html")
               (prPutBody req (some f.sha) bn)])).2 ∨
          (createPrWrite req st bn calls).2 =
          calls ++ [.getContents (jsOrStr req.filePath "index.html"),
             .putContents (jsOrStr req.filePath "index.html")
               (prPutBody req (some f.sha) bn)] := by
        simp [createPrWrite, hget, hput]
    all_goals
      rcases he with he | he
      · rw [he, createPrOpen_paths] at hq
        exact createPrWrite_fSha_paths req st bn calls (some f.sha) q hq
      · rw [he] at hq
        exact createPrWrite_fSha_paths req st bn calls (some f.sha) q hq
  · rcases hput : st.putContents (jsOrStr req.filePath "index.html")
        (prPutBody req none bn) with v | ⟨s2, t2⟩ | m2
    all_goals
      have he : (createPrWrite req st bn calls).2 =
          (createPrOpen req st bn (calls ++
            [.getContents (jsOrStr req.filePath "index.html"),
             .putContents (jsOrStr req.filePath "index.html")
               (prPutBody req none bn)])).2 ∨
          (createPrWrite req st bn calls).2 =
          calls ++ [.getContents (jsOrStr req.filePath "index.html"),
             .putContents (jsOrStr req.filePath "index.html")
               (prPutBody req none bn)] := by
        simp [createPrWrite, hget, hput]
    all_goals
      rcases he with he | he
      · rw [he, createPrOpen_paths] at hq
        exact createPrWrite_fSha_paths req st bn calls none q hq
      · rw [he] at hq
        exact createPrWrite_fSha_paths req st bn calls none q hq
  · have he : (createPrWrite req st bn calls).2 =
        calls ++ [.getContents (jsOrStr req.filePath "index.html")] := by
      simp [createPrWrite, hget]
    rw [he] at hq
    simp [pathsOf, callPath, List.filterMap_append] at hq
    rcases hq with h | h
    · exact Or.inl (by simpa [pathsOf] using h)
    · exact Or.inr h

theorem createPr_paths (req : CreatePrReq) (now : Nat) (st : Store) :
    ∀ p ∈ pathsOf (createPrHandler req now st).2, p = jsOrStr req.filePath "index.html" := by
  intro p hp
  rcases htok : getAuthToken req.auth with _ | tok
  · simp [createPrHandler, htok, pathsOf] at hp
  · rcases hmain : st.getMainRef with r | ⟨s, t⟩ | m
    · rcases hbr : st.createRef ("refs/heads/" ++ branchName now) r.sha with v | ⟨s2, t2⟩ | m2
      all_goals first
      | (have he : (createPrHandler req now st).2 =
            (createPrWrite req st (branchName now)
              [.getMainRef, .createRef ("refs/heads/" ++ branchName now) r.sha]).2 := by
           simp [createPrHandler, htok, hmain, hbr]
         rw [he] at hp
         have := createPrWrite_paths req st (branchName now)
           [.getMainRef, .createRef ("refs/heads/" ++ branchName now) r.sha] p hp
         simpa [pathsOf, callPath] using this)
      | (have he : (createPrHandler req now st).2 =
            [.getMainRef, .createRef ("refs/heads/" ++ branchName now) r.sha] := by
           simp [createPrHandler, htok, hmain, hbr]
         rw [he] at hp
         simp [pathsOf, callPath] at hp)
    · simp [createPrHandler, htok, hmain, pathsOf, callPath] at hp
    · simp [createPrHandler, htok, hmain, pathsOf, callPath] at hp

/-- Claim C10: with `filePath` omitted, every contents-API read and write of the
commit and the PR-creation handlers targets `index.html`; and in general one
invocation of either handler only ever uses a single path for its reads and
writes. -/
theorem c10_default_path (req : CommitReq) (preq : CreatePrReq) (st st2 : Store) (now : Nat)
    (h1 : req.filePath = none) (h2 : preq.filePath = none) :
    (∀ p ∈ pathsOf (commitHandler req st).2, p = "index.html") ∧
    (∀ p ∈ pathsOf (createPrHandler preq now st2).2, p = "index.html") ∧
    (∀ (req2 : CommitReq) (p q : String), p ∈ pathsOf (commitHandler req2 st).2 →
      q ∈ pathsOf (commitHandler req2 st).2 → p = q) ∧
    (∀ (preq2 : CreatePrReq) (p q : String), p ∈ pathsOf (createPrHandler preq2 now st2).2 →
      q ∈ pathsOf (createPrHandler preq2 now st2).2 → p = q) := by
  refine ⟨?_, ?_, ?_, ?_⟩
  · intro p hp
    have := commit_paths req st p hp
    rwa [h1] at this
  · intro p hp
    have := createPr_paths preq now st2 p hp
    rwa [h2] at this
  · intro req2 p q hp hq
    rw [commit_paths req2 st p hp, commit_paths req2 st q hq]
  · intro preq2 p q hp hq
    rw [createPr_paths preq2 now st2 p hp, createPr_paths preq2 now st2 q hq]

theorem c10_default_path_witness :
    (reqPr.filePath = none) ∧
    (∀ p ∈ pathsOf (createPrHandler reqPr 3 stOk).2, p = "index.html") :=
  ⟨rfl,
   (c10_default_path ⟨authEnv, [], none, none⟩ reqPr stOk stOk 3 rfl rfl).2.1⟩

end WorldWorld
